import Mathlib

/-!
Verification of the lightly excerpt: the dataset-download mixin
(`lightly/api/api_workflow_download_dataset.py`) and the symmetrized
negative-cosine-similarity loss (`lightly/loss/sym_neg_cos_sim_loss.py`).

The Python code is shallowly embedded: exceptions become `Except PyErr`,
`warnings.warn` calls become an accumulated list of warning strings, and
network activity is recorded as a trace of `ApiCall` events.  Server
responses (dataset, tags, listings, per-item download outcomes) are
supplied by an environment record, since the remote API is an external
collaborator of the code under verification.
-/

/-- Python exception values raised by the embedded code. -/
inductive PyErr where
  | valueError (msg : String)
  | indexError
  | typeError (msg : String)
  | runtimeError (msg : String)
deriving DecidableEq, Repr

/-- Embedding of Python `str.startswith`: character-list prefix test.
(The builtin `String.startsWith` is not used because the embedding must
evaluate by kernel reduction.) -/
def startswith (s pre : String) : Bool :=
  pre.data.isPrefixOf s.data

/-- Python subscription `xs[i]` for a non-negative index: raises
`IndexError` when `i` is out of range. -/
def pyGetItem {α : Type} (xs : List α) (i : Nat) : Except PyErr α :=
  match xs[i]? with
  | some x => .ok x
  | none => .error .indexError

/-- Embedding of the list comprehension `[xs[i] for i in indices]`
(used at lines 106 and 109 of `api_workflow_download_dataset.py`):
elements are gathered left to right and the first out-of-range index
raises `IndexError`. -/
def pyGather {α : Type} (xs : List α) : List Nat → Except PyErr (List α)
  | [] => .ok []
  | i :: rest => do
    let x ← pyGetItem xs i
    let tail ← pyGather xs rest
    pure (x :: tail)

/-- Python `try ... except Exception` around a fallible body: the handler
turns every raised exception into an ordinary value. -/
def pyTry {α : Type} (body : Except String α) (handler : String → α) : α :=
  match body with
  | .ok a => a
  | .error e => handler e

/-- Modelled from the spec: `BitMask.from_hex` parsing (module
`lightly.api.bitmask` is not part of this excerpt).  Each hex digit maps
to 4 bits, digit order corresponds to descending bit-group significance,
and a non-hex character raises a decoding error. -/
def hexDigit (c : Char) : Option Nat :=
  if '0' ≤ c ∧ c ≤ '9' then some (c.toNat - '0'.toNat)
  else if 'a' ≤ c ∧ c ≤ 'f' then some (c.toNat - 'a'.toNat + 10)
  else if 'A' ≤ c ∧ c ≤ 'F' then some (c.toNat - 'A'.toNat + 10)
  else none

/-- Modelled from the spec: numeric value of a hexadecimal string. -/
def hexToNat (s : String) : Except PyErr Nat :=
  s.data.foldlM
    (fun acc c =>
      match hexDigit c with
      | some d => .ok (acc * 16 + d)
      | none => .error (.valueError "invalid hexadecimal string"))
    0

/-- Ascending list of set-bit positions of `n`.  Every set bit of `n`
lies strictly below `n + 1`, so the `range` bound is exhaustive. -/
def natBitIndices (n : Nat) : List Nat :=
  (List.range (n + 1)).filter (fun i => n.testBit i)

/-- Modelled from the spec: `BitMask.from_hex(hex).to_indices()` —
decodes a hexadecimal bitmask into the ordered (ascending) list of
set-bit positions. -/
def bitmask_to_indices (hex : String) : Except PyErr (List Nat) :=
  (hexToNat hex).map natBitIndices

/-- One tag record as returned by `get_all_tags` (only the fields read
by `download_dataset`). -/
structure TagData where
  name : String
  bit_mask_data : String
deriving DecidableEq, Repr

/-- The `ImageType` enum of the generated API models; `download_dataset`
only distinguishes `FULL` from everything else. -/
inductive ImageType where
  | full
  | thumbnail
  | meta
deriving DecidableEq, Repr

/-- Network calls issued by `download_dataset`, in the order they are
made.  `downloadItem` stands for the whole per-item attempt (signed-URL
request, HTTP GET, decode and write). -/
inductive ApiCall where
  | getDatasetById
  | getAllTags
  | sampleListing
  | filenameListing
  | downloadItem (sample_id : String) (filename : String)
deriving DecidableEq, Repr

/-- Environment supplying the responses of the remote API and of the
filesystem/image collaborators: the image type of the dataset, its tags, the
two index-aligned full listings, and the outcome of each per-item
download attempt (`.error e` means the attempt raises exception `e`
somewhere in the signed-URL request, fetch, decode or write). -/
structure ApiEnv where
  dataset_id : String
  img_type : ImageType
  tags : List TagData
  sample_ids_on_server : List String
  filenames_on_server : List String
  attempt : String → String → Except String Unit

/-- The per-item warning text of line 139. -/
def itemWarning (filename : String) (e : String) : String :=
  "Downloading of image " ++ (filename ++ (" failed with error " ++ e))

/-- The aggregate warning text of lines 154-155. -/
def aggregateWarning (idx : Nat) : String :=
  "Warning: Unsuccessful download! " ++ ("Failed at image: " ++ toString idx)

/-- A warning is the aggregate one exactly when it carries the aggregate
prefix (per-item warnings start with a different text). -/
def isAggregateWarning (w : String) : Bool :=
  startswith w "Warning: Unsuccessful download! "

/-- Result of one `lambda_` invocation: the success flag it returns, the
warnings it emits and the api calls it makes. -/
structure ItemOutcome where
  success : Bool
  warnings : List String
  calls : List ApiCall
deriving Repr

/-- Embedding of `lambda_` (lines 126-148): one download attempt, with
every exception caught and converted into a warning plus `success =
false`.  The progress-bar update (lines 143-146) is display-only and not
modelled. -/
def lambda_ (env : ApiEnv) (i : String × String) : ItemOutcome :=
  let (sample_id, filename) := i
  pyTry
    ((env.attempt sample_id filename).map
      (fun _ => { success := true, warnings := [], calls := [.downloadItem sample_id filename] }))
    (fun e =>
      { success := false
        warnings := [itemWarning filename e]
        calls := [.downloadItem sample_id filename] })

/-- Result of the download phase: the `results` list built by
`executor.map` (submission order) plus warnings and calls. -/
structure PhaseResult where
  results : List Bool
  warnings : List String
  calls : List ApiCall
deriving Repr

/-- Embedding of lines 150-156: `executor.map(lambda_, downloadables)`
collected into `results` (submission order is preserved by
`ThreadPoolExecutor.map`), followed by the aggregate warning when not
all results are `True`, referencing `results.index(False)`. -/
def downloadAll (env : ApiEnv) (downloadables : List (String × String)) : PhaseResult :=
  let outcomes := downloadables.map (lambda_ env)
  let results := outcomes.map (fun o => o.success)
  let itemWarns := (outcomes.map (fun o => o.warnings)).flatten
  let calls := (outcomes.map (fun o => o.calls)).flatten
  if results.all (fun b => b) then
    { results := results, warnings := itemWarns, calls := calls }
  else
    { results := results
      warnings := itemWarns ++ [aggregateWarning (results.indexOf false)]
      calls := calls }

/-- Embedding of lines 113-115: `max_workers = min(len(sample_ids),
max_workers); max_workers = max(max_workers, 1)`. -/
def clampWorkers (n : Nat) (max_workers : Int) : Int :=
  let mw := min (n : Int) max_workers
  max mw 1

/-- Outcome of a whole `download_dataset` call: the raised exception (if
any), all warnings, the trace of api calls and the effective worker
count (present once the download phase is reached). -/
structure RunResult where
  outcome : Except PyErr Unit
  warnings : List String
  calls : List ApiCall
  workers : Option Int

/-- Embedding of `download_dataset` (lines 43-156).  Control flow of the
source, in order: fetch the dataset and check its image type; fetch all
tags and locate the requested one (`next(...)`, first match); fetch the
sample-id listing; decode the bitmask of the tag; gather the sample-id subset
(Python indexing, may raise `IndexError`); fetch the filename listing;
gather the filename subset; clamp the worker count; run the download
phase. -/
def download_dataset (env : ApiEnv) (tag_name : String) (max_workers : Int) : RunResult :=
  let calls0 := [ApiCall.getDatasetById]
  if env.img_type ≠ ImageType.full then
    { outcome := .error (.valueError
        ("Dataset with id " ++ (env.dataset_id ++ " has no downloadable images!")))
      warnings := [], calls := calls0, workers := none }
  else
    let calls1 := calls0 ++ [ApiCall.getAllTags]
    match env.tags.find? (fun tag => tag.name == tag_name) with
    | none =>
      { outcome := .error (.valueError
          ("Dataset with id " ++ (env.dataset_id ++ (" has no tag " ++ (tag_name ++ "!")))))
        warnings := [], calls := calls1, workers := none }
    | some tag =>
      let calls2 := calls1 ++ [ApiCall.sampleListing]
      match bitmask_to_indices tag.bit_mask_data with
      | .error e => { outcome := .error e, warnings := [], calls := calls2, workers := none }
      | .ok indices =>
        match pyGather env.sample_ids_on_server indices with
        | .error e => { outcome := .error e, warnings := [], calls := calls2, workers := none }
        | .ok sample_ids =>
          let calls3 := calls2 ++ [ApiCall.filenameListing]
          match pyGather env.filenames_on_server indices with
          | .error e => { outcome := .error e, warnings := [], calls := calls3, workers := none }
          | .ok filenames =>
            let downloadables := sample_ids.zip filenames
            let workers := clampWorkers sample_ids.length max_workers
            let phase := downloadAll env downloadables
            { outcome := .ok ()
              warnings := phase.warnings
              calls := calls3 ++ phase.calls
              workers := some workers }

/-- The fields of the generated `DatasetEmbeddingData` model read by
this excerpt. -/
structure DatasetEmbeddingData where
  id : String
  name : String
  created_at : Int
  is_processed : Bool
  is2d : Bool
deriving DecidableEq, Repr

/-- Ordering used by `sorted(default_embeddings, key=lambda e: e.created_at)`. -/
def createdAtLE (a b : DatasetEmbeddingData) : Prop :=
  a.created_at ≤ b.created_at

instance : DecidableRel createdAtLE := fun a b => Int.decLe a.created_at b.created_at

instance : IsTotal DatasetEmbeddingData createdAtLE :=
  ⟨fun a b => Int.le_total a.created_at b.created_at⟩

instance : IsTrans DatasetEmbeddingData createdAtLE :=
  ⟨fun _ _ _ hab hbc => le_trans hab hbc⟩

/-- Embedding of `_get_latest_default_embedding_data` (lines 311-322):
filter the embeddings whose name starts with `"default"`; if any exist,
sort them ascending by `created_at` (Python `sorted` is stable, as is
insertion sort) and return the last one, else return `None`. -/
def _get_latest_default_embedding_data (embeddings : List DatasetEmbeddingData) :
    Option DatasetEmbeddingData :=
  let default_embeddings := embeddings.filter (fun e => startswith e.name "default")
  if default_embeddings.isEmpty then none
  else (List.insertionSort createdAtLE default_embeddings).getLast?

/-- A file system as a map from paths to file contents. -/
def FileSystem : Type := String → Option String

/-- Environment for the embeddings-CSV workflow: the embedding
records plus the external collaborators minting signed CSV read urls and
serving their content. -/
structure CsvEnv where
  dataset_id : String
  embeddings : List DatasetEmbeddingData
  csv_read_url : String → String
  fetch : String → String

/-- Modelled from the spec: `download.download_and_write_file` (module
`lightly.api.download` is not part of this excerpt) downloads the file
behind `url` and writes it to `output_path`, overwriting any existing
file at that path. -/
def download_and_write_file (fetch : String → String) (url : String) (output_path : String)
    (fs : FileSystem) : FileSystem :=
  fun p => if p = output_path then some (fetch url) else fs p

/-- Embedding of `download_embeddings_csv_by_id` (lines 213-241): mint a
signed read url for the embedding and download it to `output_path`. -/
def download_embeddings_csv_by_id (env : CsvEnv) (embedding_id : String)
    (output_path : String) (fs : FileSystem) : FileSystem :=
  let read_url := env.csv_read_url embedding_id
  download_and_write_file env.fetch read_url output_path fs

/-- Embedding of `download_embeddings_csv` (lines 243-274): resolve the
latest default embedding; raise `RuntimeError` when there is none, else
download its CSV. -/
def download_embeddings_csv (env : CsvEnv) (output_path : String) (fs : FileSystem) :
    Except PyErr FileSystem :=
  match _get_latest_default_embedding_data env.embeddings with
  | none =>
    .error (.runtimeError
      ("Could not find embeddings for dataset with id " ++ (env.dataset_id ++ ".")))
  | some last_embedding =>
    .ok (download_embeddings_csv_by_id env last_embedding.id output_path fs)

/-!
Model of `SymNegCosineSimilarityLoss` (`sym_neg_cos_sim_loss.py`).

A tensor of shape (batch, dim) is a list of rows over `ℚ`.  The torch
primitive `F.cosine_similarity(·, ·, dim=-1)` belongs to the external
autodiff runtime, so it enters the model as a parameter `cos` applied
row-wise; `.mean()` and the arithmetic around it are part of the source
and are modelled concretely.  `.detach()` only severs gradients and is
the identity on values.
-/

/-- A (batch × dim) tensor over the rationals. -/
def QTensor : Type := List (List ℚ)

/-- Value-level embedding of `Tensor.detach`. -/
def detach (x : QTensor) : QTensor := x

/-- Row-wise application of the external cosine primitive, as in
`F.cosine_similarity(x, y, dim=-1)` on (batch × dim) tensors. -/
def cosineRows (cos : List ℚ → List ℚ → ℚ) (x y : QTensor) : List ℚ :=
  List.zipWith cos x y

/-- Embedding of `Tensor.mean` on a 1-d tensor. -/
def tensorMean (l : List ℚ) : ℚ := l.sum / l.length

/-- Embedding of `_neg_cosine_simililarity` (lines 76-87):
`-F.cosine_similarity(x, y.detach(), dim=-1).mean()`. -/
def _neg_cosine_simililarity (cos : List ℚ → List ℚ → ℚ) (x y : QTensor) : ℚ :=
  -(tensorMean (cosineRows cos x (detach y)))

/-- Embedding of `SymNegCosineSimilarityLoss.forward` (lines 48-74) on
inputs that destructure as `(z, p)` pairs. -/
def forward (cos : List ℚ → List ℚ → ℚ) (out0 out1 : QTensor × QTensor) : ℚ :=
  let (z0, p0) := out0
  let (z1, p1) := out1
  _neg_cosine_simililarity cos p0 z1 / 2 + _neg_cosine_simililarity cos p1 z0 / 2

/-!
Dynamic model of the argument handling of `forward`.  The statements
`z0, p0 = out0` and `z1, p1 = out1` use Python iterable unpacking, whose
behaviour depends on the runtime type of the argument: a tuple unpacks
into its elements, while a `torch.Tensor` is itself iterable and unpacks
into its slices along the first dimension (a 0-d tensor is not iterable).
-/

/-- A dynamically shaped tensor: a scalar or an array of sub-tensors. -/
inductive PyTensor where
  | scalar (v : ℚ)
  | arr (elems : List PyTensor)

/-- A runtime value passed to `forward`: a tuple of tensors or a plain
tensor. -/
inductive PyValue where
  | tensor (t : PyTensor)
  | tuple (elems : List PyTensor)

/-- Python unpacking `a, b = v`: a tuple must have exactly two elements
(`ValueError` otherwise); a tensor is iterated along its first
dimension, so it unpacks exactly when that dimension has length 2; a
0-d tensor is not iterable (`TypeError`). -/
def pyUnpack2 (v : PyValue) : Except PyErr (PyTensor × PyTensor) :=
  match v with
  | .tuple [a, b] => .ok (a, b)
  | .tuple _ => .error (.valueError "unpacking requires exactly 2 values")
  | .tensor (.scalar _) => .error (.typeError "iteration over a 0-d tensor")
  | .tensor (.arr [a, b]) => .ok (a, b)
  | .tensor (.arr _) => .error (.valueError "unpacking requires exactly 2 values")

/-- Whether `a, b = v` succeeds. -/
def unpacksToTwo (v : PyValue) : Bool :=
  match v with
  | .tuple l => l.length == 2
  | .tensor (.scalar _) => false
  | .tensor (.arr l) => l.length == 2

/-- Dynamic embedding of `forward`: unpack both arguments, then compute
`ncs(p0, z1)/2 + ncs(p1, z0)/2`, where `sim` is the external
`F.cosine_similarity(...).mean()` primitive (it may itself raise, e.g.
on 0-d operands).  Returns the outcome together with the list of
similarity calls that were made. -/
def forwardDyn (sim : PyTensor → PyTensor → Except PyErr ℚ) (out0 out1 : PyValue) :
    Except PyErr ℚ × List (PyTensor × PyTensor) :=
  match pyUnpack2 out0 with
  | .error e => (.error e, [])
  | .ok (z0, p0) =>
    match pyUnpack2 out1 with
    | .error e => (.error e, [])
    | .ok (z1, p1) =>
      match sim p0 z1 with
      | .error e => (.error e, [(p0, z1)])
      | .ok a =>
        match sim p1 z0 with
        | .error e => (.error e, [(p0, z1), (p1, z0)])
        | .ok b => (.ok (-a / 2 + -b / 2), [(p0, z1), (p1, z0)])

/-!  Helper lemmas. -/

lemma pyGather_eq_map {α : Type} (xs : List α) (d : α) (indices : List Nat)
    (h : ∀ i ∈ indices, i < xs.length) :
    pyGather xs indices = .ok (indices.map (fun i => xs.getD i d)) := by
  induction indices with
  | nil => rfl
  | cons i rest ih =>
    have hi : i < xs.length := h i (List.mem_cons_self i rest)
    have hrest : ∀ j ∈ rest, j < xs.length := fun j hj => h j (List.mem_cons_of_mem i hj)
    simp [pyGather, pyGetItem, List.getElem?_eq_getElem hi, ih hrest,
      List.getD_eq_getElem xs d hi, Bind.bind, Except.bind, pure, Except.pure]

lemma pyGather_err {α : Type} (xs : List α) (indices : List Nat)
    (h : ∃ i ∈ indices, xs.length ≤ i) :
    pyGather xs indices = .error .indexError := by
  induction indices with
  | nil => simp at h
  | cons i rest ih =>
    by_cases hi : i < xs.length
    · have hr : ∃ j ∈ rest, xs.length ≤ j := by
        obtain ⟨j, hj, hjl⟩ := h
        rcases List.mem_cons.mp hj with rfl | hj2
        · omega
        · exact ⟨j, hj2, hjl⟩
      simp [pyGather, pyGetItem, List.getElem?_eq_getElem hi, ih hr,
        Bind.bind, Except.bind]
    · have : xs[i]? = none := List.getElem?_eq_none (by omega)
      simp [pyGather, pyGetItem, this, Bind.bind, Except.bind]

/-- Claim C3: for every index list decoded from the bitmask of the matched tag
bitmask and every pair of index-aligned full lists, the subset selection
of lines 105-109 (`[xs[i] for i in indices]`) selects exactly the
elements at those indices from each list, in the order of the indices,
so both selected subsets have the same length as the index list. -/
theorem tag_resolution_index_selection (sample_ids filenames : List String)
    (indices : List Nat)
    (h1 : ∀ i ∈ indices, i < sample_ids.length)
    (h2 : ∀ i ∈ indices, i < filenames.length) :
    pyGather sample_ids indices = .ok (indices.map (fun i => sample_ids.getD i "")) ∧
    pyGather filenames indices = .ok (indices.map (fun i => filenames.getD i "")) ∧
    (indices.map (fun i => sample_ids.getD i "")).length = indices.length ∧
    (indices.map (fun i => filenames.getD i "")).length = indices.length :=
  ⟨pyGather_eq_map sample_ids "" indices h1, pyGather_eq_map filenames "" indices h2,
    List.length_map indices _, List.length_map indices _⟩

/-- Witness for C3, on the example of the spec: `sample_ids =
["a","b","c","d"]`, `filenames = ["w","x","y","z"]`, `indices = [1,3]`
yield subsets `["b","d"]` and `["x","z"]`. -/
theorem tag_resolution_index_selection_witness :
    (∀ i ∈ [1, 3], i < (["a", "b", "c", "d"] : List String).length) ∧
    pyGather ["a", "b", "c", "d"] [1, 3] = .ok ["b", "d"] ∧
    pyGather ["w", "x", "y", "z"] [1, 3] = .ok ["x", "z"] := by
  refine ⟨by decide, ?_, ?_⟩
  · exact (tag_resolution_index_selection ["a", "b", "c", "d"] ["w", "x", "y", "z"] [1, 3]
      (by decide) (by decide)).1
  · exact (tag_resolution_index_selection ["a", "b", "c", "d"] ["w", "x", "y", "z"] [1, 3]
      (by decide) (by decide)).2.1

/-- Claim C4: the effective worker count of lines 113-115 equals
`max(1, min(max_workers, number of items))` — never zero and never more
workers than items; with 3 items and `max_workers = 8` it is 3, with 0
items it is 1, and an empty batch completes with zero warnings. -/
theorem worker_clamp_spec (n : Nat) (mw : Int) (env : ApiEnv) :
    clampWorkers n mw = max 1 (min mw (n : Int)) ∧
    1 ≤ clampWorkers n mw ∧
    (1 ≤ mw → clampWorkers n mw ≤ max 1 (n : Int)) ∧
    clampWorkers 3 8 = 3 ∧
    clampWorkers 0 8 = 1 ∧
    (downloadAll env []).warnings = [] ∧
    (downloadAll env []).results = [] := by
  refine ⟨?_, ?_, ?_, by decide, by decide, rfl, rfl⟩
  · simp only [clampWorkers]
    rw [max_comm, min_comm]
  · simp [clampWorkers]
  · intro h
    simp only [clampWorkers]
    omega

/-- Claim C2: `download_dataset` checks its preconditions in order.  A
dataset whose image type is not the full-images variant raises a
`ValueError` before any other work (the trace holds only the dataset
fetch itself), and an unknown `tag_name` raises a `ValueError` before
any sample-ID listing, filename listing or download call is made. -/
theorem download_dataset_precondition_order (env : ApiEnv) (tag_name : String) (mw : Int) :
    (env.img_type ≠ ImageType.full →
      (∃ msg, (download_dataset env tag_name mw).outcome = .error (.valueError msg)) ∧
      (download_dataset env tag_name mw).calls = [.getDatasetById]) ∧
    (env.img_type = ImageType.full →
      (∀ tag ∈ env.tags, tag.name ≠ tag_name) →
      (∃ msg, (download_dataset env tag_name mw).outcome = .error (.valueError msg)) ∧
      (download_dataset env tag_name mw).calls = [.getDatasetById, .getAllTags]) := by
  constructor
  · intro himg
    simp [download_dataset, himg]
  · intro himg htag
    have hfind : env.tags.find? (fun tag => tag.name == tag_name) = none :=
      List.find?_eq_none.mpr (fun tag htg => by simp [htag tag htg])
    simp [download_dataset, himg, hfind]

/-- Environment for the C2 witness whose dataset has only thumbnails. -/
def envC2thumb : ApiEnv :=
  { dataset_id := "d2", img_type := .thumbnail
    tags := [⟨"initial-tag", "1"⟩]
    sample_ids_on_server := ["s0"], filenames_on_server := ["f0"]
    attempt := fun _ _ => .ok () }

/-- Environment for the C2 witness whose dataset has full images but no
tag named `"missing"`. -/
def envC2notag : ApiEnv :=
  { dataset_id := "d3", img_type := .full
    tags := [⟨"initial-tag", "1"⟩]
    sample_ids_on_server := ["s0"], filenames_on_server := ["f0"]
    attempt := fun _ _ => .ok () }

/-- Witness for C2: the two precondition failures at concrete inputs. -/
theorem download_dataset_precondition_order_witness :
    envC2thumb.img_type ≠ ImageType.full ∧
    (download_dataset envC2thumb "initial-tag" 8).calls = [.getDatasetById] ∧
    (∀ tag ∈ envC2notag.tags, tag.name ≠ "missing") ∧
    (download_dataset envC2notag "missing" 8).calls = [.getDatasetById, .getAllTags] := by
  refine ⟨by decide, ?_, by decide, ?_⟩
  · exact ((download_dataset_precondition_order envC2thumb "initial-tag" 8).1 (by decide)).2
  · exact ((download_dataset_precondition_order envC2notag "missing" 8).2 rfl (by decide)).2

lemma lambda_calls (env : ApiEnv) (p : String × String) :
    (lambda_ env p).calls = [.downloadItem p.1 p.2] := by
  obtain ⟨s, f⟩ := p
  cases h : env.attempt s f <;> simp [lambda_, pyTry, Except.map, h]

lemma lambda_of_error (env : ApiEnv) (s f e : String) (he : env.attempt s f = .error e) :
    lambda_ env (s, f) =
      { success := false, warnings := [itemWarning f e], calls := [.downloadItem s f] } := by
  simp [lambda_, pyTry, Except.map, he]

lemma lambda_warning_shape (env : ApiEnv) (p : String × String) :
    (lambda_ env p).warnings = [] ∨
    ∃ e, (lambda_ env p).warnings = [itemWarning p.2 e] := by
  obtain ⟨s, f⟩ := p
  cases h : env.attempt s f with
  | ok _ => exact Or.inl (by simp [lambda_, pyTry, Except.map, h])
  | error e => exact Or.inr ⟨e, by simp [lambda_, pyTry, Except.map, h]⟩

lemma flatten_map_singleton {α β : Type} (l : List α) (g : α → β) :
    (l.map (fun x => [g x])).flatten = l.map g := by
  induction l with
  | nil => rfl
  | cons a t ih => simp [ih]

lemma isAggregateWarning_aggregate (idx : Nat) :
    isAggregateWarning (aggregateWarning idx) = true := by
  have : ("Warning: Unsuccessful download! ".data).isPrefixOf
      ("Warning: Unsuccessful download! ".data ++ ("Failed at image: " ++ toString idx).data)
      = true :=
    List.isPrefixOf_iff_prefix.mpr (List.prefix_append _ _)
  simp [isAggregateWarning, startswith, aggregateWarning, String.data_append, this]

lemma isAggregateWarning_item (f e : String) :
    isAggregateWarning (itemWarning f e) = false := by
  have h1 : "Warning: Unsuccessful download! ".data
      = 'W' :: "arning: Unsuccessful download! ".data := rfl
  have h2 : "Downloading of image ".data = 'D' :: "ownloading of image ".data := rfl
  simp only [isAggregateWarning, startswith, itemWarning, String.data_append, h1, h2,
    List.cons_append, List.isPrefixOf_cons₂]
  rw [show ('W' == 'D') = false from by decide, Bool.false_and]

lemma downloadAll_results (env : ApiEnv) (pairs : List (String × String)) :
    (downloadAll env pairs).results = (pairs.map (lambda_ env)).map (fun o => o.success) := by
  unfold downloadAll
  dsimp only
  split <;> rfl

lemma downloadAll_calls (env : ApiEnv) (pairs : List (String × String)) :
    (downloadAll env pairs).calls = pairs.map (fun p => ApiCall.downloadItem p.1 p.2) := by
  have hraw : (downloadAll env pairs).calls
      = ((pairs.map (lambda_ env)).map (fun o => o.calls)).flatten := by
    unfold downloadAll
    dsimp only
    split <;> rfl
  have hmap : (pairs.map (lambda_ env)).map (fun o => o.calls)
      = pairs.map (fun p => [ApiCall.downloadItem p.1 p.2]) := by
    rw [List.map_map]
    exact List.map_congr_left (fun p _ => lambda_calls env p)
  rw [hraw, hmap, flatten_map_singleton]

lemma itemWarns_countP_zero (env : ApiEnv) (pairs : List (String × String)) :
    (((pairs.map (lambda_ env)).map (fun o => o.warnings)).flatten).countP
      isAggregateWarning = 0 := by
  rw [List.countP_eq_zero]
  intro w hw
  rw [List.mem_flatten] at hw
  obtain ⟨l, hl, hwl⟩ := hw
  rw [List.mem_map] at hl
  obtain ⟨o, ho, rfl⟩ := hl
  rw [List.mem_map] at ho
  obtain ⟨p, _, rfl⟩ := ho
  rcases lambda_warning_shape env p with hsh | ⟨e, hsh⟩
  · rw [hsh] at hwl
    simp at hwl
  · rw [hsh] at hwl
    rw [List.mem_singleton] at hwl
    subst hwl
    simp [isAggregateWarning_item]

lemma downloadAll_warnings (env : ApiEnv) (pairs : List (String × String)) :
    (downloadAll env pairs).warnings
      = ((pairs.map (lambda_ env)).map (fun o => o.warnings)).flatten ++
        (if ((pairs.map (lambda_ env)).map (fun o => o.success)).all (fun b => b) then []
         else [aggregateWarning
            ((((pairs.map (lambda_ env)).map (fun o => o.success))).indexOf false)]) := by
  unfold downloadAll
  dsimp only
  split <;> simp_all

lemma indexOf_false_spec (l : List Bool) (h : l.all (fun b => b) = false) :
    l[l.indexOf false]? = some false ∧ ∀ j < l.indexOf false, l[j]? = some true := by
  induction l with
  | nil => simp at h
  | cons b t ih =>
    cases b with
    | false =>
      refine ⟨?_, ?_⟩
      · simp [List.indexOf_cons]
      · intro j hj
        simp [List.indexOf_cons] at hj
    | true =>
      have ht : t.all (fun b => b) = false := by simpa using h
      obtain ⟨ih1, ih2⟩ := ih ht
      have hidx : (true :: t).indexOf false = t.indexOf false + 1 := by
        simp [List.indexOf_cons]
      refine ⟨?_, ?_⟩
      · rw [hidx]
        simpa using ih1
      · intro j hj
        rw [hidx] at hj
        cases j with
        | zero => simp
        | succ k =>
          have hk : k < t.indexOf false := by omega
          simpa using ih2 k hk

/-- Claim C1: the download phase never raises (`downloadAll` is total
and produces one boolean result per submitted item, because `lambda_`
catches every per-item exception); if at least one item failed, exactly
one aggregate warning is emitted and it carries the index of the first
`false` entry of the results list (0-based, submission order); no
aggregate warning is emitted when every item succeeds. -/
theorem download_phase_no_raise_single_aggregate (env : ApiEnv)
    (pairs : List (String × String)) :
    (downloadAll env pairs).results.length = pairs.length ∧
    ((downloadAll env pairs).results.all (fun b => b) = true →
      (downloadAll env pairs).warnings.countP isAggregateWarning = 0) ∧
    ((downloadAll env pairs).results.all (fun b => b) = false →
      (downloadAll env pairs).warnings.countP isAggregateWarning = 1 ∧
      aggregateWarning ((downloadAll env pairs).results.indexOf false) ∈
        (downloadAll env pairs).warnings ∧
      (downloadAll env pairs).results[(downloadAll env pairs).results.indexOf false]?
        = some false ∧
      ∀ j < (downloadAll env pairs).results.indexOf false,
        (downloadAll env pairs).results[j]? = some true) := by
  have hres := downloadAll_results env pairs
  have hwarn := downloadAll_warnings env pairs
  refine ⟨by rw [hres]; simp, ?_, ?_⟩
  · intro hall
    rw [hres] at hall
    rw [hwarn]
    simp only [hall, if_true]
    simpa using itemWarns_countP_zero env pairs
  · intro hall
    rw [hres] at hall
    have hspec := indexOf_false_spec ((pairs.map (lambda_ env)).map (fun o => o.success)) hall
    refine ⟨?_, ?_, ?_, ?_⟩
    · rw [hwarn]
      simp only [hall, Bool.false_eq_true, if_false]
      rw [List.countP_append, itemWarns_countP_zero env pairs]
      simp [List.countP_cons, isAggregateWarning_aggregate]
    · rw [hwarn, hres]
      have hcond :
          ¬(((pairs.map (lambda_ env)).map (fun o => o.success)).all (fun b => b) = true) := by
        rw [hall]
        simp
      rw [if_neg hcond]
      exact List.mem_append_right _ (List.mem_singleton_self _)
    · rw [hres]
      exact hspec.1
    · rw [hres]
      exact hspec.2

/-- Environment for the C1 witness, the partial-failure example of the spec:
5 items of which the one at index 2 fails during decode. -/
def envC1 : ApiEnv :=
  { dataset_id := "d1", img_type := .full
    tags := [⟨"initial-tag", "1f"⟩]
    sample_ids_on_server := ["s0", "s1", "s2", "s3", "s4"]
    filenames_on_server := ["f0", "f1", "f2", "f3", "f4"]
    attempt := fun _ f => if f = "f2" then .error "decode failed" else .ok () }

/-- The five (sample id, filename) pairs of the C1 witness. -/
def pairsC1 : List (String × String) :=
  [("s0", "f0"), ("s1", "f1"), ("s2", "f2"), ("s3", "f3"), ("s4", "f4")]

/-- Witness for C1: on the 5-item batch whose item 2 fails, exactly one
aggregate warning is emitted and it references index 2. -/
theorem download_phase_no_raise_single_aggregate_witness :
    (downloadAll envC1 pairsC1).results.all (fun b => b) = false ∧
    (downloadAll envC1 pairsC1).warnings.countP isAggregateWarning = 1 ∧
    aggregateWarning 2 ∈ (downloadAll envC1 pairsC1).warnings := by
  have h := download_phase_no_raise_single_aggregate envC1 pairsC1
  have hall : (downloadAll envC1 pairsC1).results.all (fun b => b) = false := rfl
  have hidx : (downloadAll envC1 pairsC1).results.indexOf false = 2 := rfl
  exact ⟨hall, (h.2.2 hall).1, hidx ▸ (h.2.2 hall).2.1⟩

/-- Claim C5: an item whose download attempt raises is recorded as
failed, produces a warning built from its filename and the error, is
attempted exactly once (the call trace holds exactly one download call
per submitted pair, in submission order — no retry), and the remaining
items are still processed (one result per pair). -/
theorem per_item_failure_warn_continue (env : ApiEnv) (pairs : List (String × String))
    (k : Nat) (sid fn e : String)
    (hk : pairs[k]? = some (sid, fn))
    (he : env.attempt sid fn = .error e) :
    (downloadAll env pairs).results[k]? = some false ∧
    itemWarning fn e ∈ (downloadAll env pairs).warnings ∧
    (downloadAll env pairs).calls = pairs.map (fun p => ApiCall.downloadItem p.1 p.2) ∧
    (downloadAll env pairs).results.length = pairs.length := by
  have hres := downloadAll_results env pairs
  refine ⟨?_, ?_, downloadAll_calls env pairs, by rw [hres]; simp⟩
  · rw [hres, List.getElem?_map, List.getElem?_map, hk]
    simp [lambda_of_error env sid fn e he]
  · rw [downloadAll_warnings env pairs]
    apply List.mem_append_left
    rw [List.mem_flatten]
    refine ⟨[itemWarning fn e], ?_, List.mem_singleton_self _⟩
    rw [List.mem_map]
    refine ⟨lambda_ env (sid, fn), ?_, by rw [lambda_of_error env sid fn e he]⟩
    rw [List.mem_map]
    exact ⟨(sid, fn), List.getElem?_mem hk, rfl⟩

/-- Environment for the C5 witness: the attempt for filename `"f1"`
raises `"boom"`, all other attempts succeed. -/
def envC5 : ApiEnv :=
  { dataset_id := "d5", img_type := .full
    tags := [⟨"initial-tag", "3"⟩]
    sample_ids_on_server := ["s1", "s2"]
    filenames_on_server := ["f1", "f2"]
    attempt := fun _ f => if f = "f1" then .error "boom" else .ok () }

/-- The two pairs of the C5 witness. -/
def pairsC5 : List (String × String) := [("s1", "f1"), ("s2", "f2")]

/-- Witness for C5 at the concrete failing item of index 0. -/
theorem per_item_failure_warn_continue_witness :
    pairsC5[0]? = some ("s1", "f1") ∧
    envC5.attempt "s1" "f1" = .error "boom" ∧
    (downloadAll envC5 pairsC5).results[0]? = some false ∧
    itemWarning "f1" "boom" ∈ (downloadAll envC5 pairsC5).warnings ∧
    (downloadAll envC5 pairsC5).results.length = pairsC5.length := by
  have h := per_item_failure_warn_continue envC5 pairsC5 0 "s1" "f1" "boom" rfl rfl
  exact ⟨rfl, rfl, h.1, h.2.1, h.2.2.2⟩

/-- Claim C9: when the decoded bitmask of the matched tag contains an
index that is out of range for the fetched sample-ID list or for the
fetched filename list, `download_dataset` raises an uncaught
`IndexError` during subset selection (lines 105-109), and no download
call appears in the trace. -/
theorem oob_index_raises_before_download (env : ApiEnv) (tag_name : String) (mw : Int)
    (tag : TagData) (indices : List Nat)
    (himg : env.img_type = ImageType.full)
    (htag : env.tags.find? (fun t => t.name == tag_name) = some tag)
    (hdec : bitmask_to_indices tag.bit_mask_data = .ok indices)
    (hoob : ∃ i ∈ indices,
      env.sample_ids_on_server.length ≤ i ∨ env.filenames_on_server.length ≤ i) :
    (download_dataset env tag_name mw).outcome = .error .indexError ∧
    ∀ s f, ApiCall.downloadItem s f ∉ (download_dataset env tag_name mw).calls := by
  by_cases hs : ∃ i ∈ indices, env.sample_ids_on_server.length ≤ i
  · have herr := pyGather_err env.sample_ids_on_server indices hs
    constructor
    · simp [download_dataset, himg, htag, hdec, herr]
    · intro s f
      simp [download_dataset, himg, htag, hdec, herr]
  · push_neg at hs
    have hokS := pyGather_eq_map env.sample_ids_on_server "" indices hs
    have hf : ∃ i ∈ indices, env.filenames_on_server.length ≤ i := by
      obtain ⟨i, hi, hcase⟩ := hoob
      rcases hcase with h1 | h2
      · exact absurd h1 (not_le.mpr (hs i hi))
      · exact ⟨i, hi, h2⟩
    have herrF := pyGather_err env.filenames_on_server indices hf
    constructor
    · simp [download_dataset, himg, htag, hdec, hokS, herrF]
    · intro s f
      simp [download_dataset, himg, htag, hdec, hokS, herrF]

/-- Environment for the C9 witness: the tag bitmask `"10"` (hex, value
16) decodes to index 4, while both listings have only 2 entries. -/
def envC9 : ApiEnv :=
  { dataset_id := "d9", img_type := .full
    tags := [⟨"t", "10"⟩]
    sample_ids_on_server := ["a", "b"]
    filenames_on_server := ["w", "x"]
    attempt := fun _ _ => .ok () }

/-- Witness for C9 at the concrete out-of-range input. -/
theorem oob_index_raises_before_download_witness :
    bitmask_to_indices "10" = .ok [4] ∧
    (∃ i ∈ [4],
      envC9.sample_ids_on_server.length ≤ i ∨ envC9.filenames_on_server.length ≤ i) ∧
    (download_dataset envC9 "t" 8).outcome = .error .indexError ∧
    ∀ s f, ApiCall.downloadItem s f ∉ (download_dataset envC9 "t" 8).calls := by
  have h := oob_index_raises_before_download envC9 "t" 8 ⟨"t", "10"⟩ [4] rfl rfl rfl
    (by decide)
  exact ⟨rfl, by decide, h.1, h.2⟩

lemma sorted_last_max (l : List DatasetEmbeddingData) :
    List.Sorted createdAtLE l → ∀ r, l.getLast? = some r →
    ∀ x ∈ l, x.created_at ≤ r.created_at := by
  induction l with
  | nil =>
    intro _ r hr
    simp at hr
  | cons a t ih =>
    intro hs r hr x hx
    rw [List.sorted_cons] at hs
    obtain ⟨ha, hst⟩ := hs
    cases t with
    | nil =>
      simp at hr hx
      subst hr
      subst hx
      exact le_refl _
    | cons b t2 =>
      rw [List.getLast?_cons_cons] at hr
      rcases List.mem_cons.mp hx with rfl | hx2
      · exact ha r (List.mem_of_mem_getLast? hr)
      · exact ih hst r hr x hx2

lemma latest_none_iff (embeddings : List DatasetEmbeddingData) :
    _get_latest_default_embedding_data embeddings = none ↔
      ∀ e ∈ embeddings, startswith e.name "default" = false := by
  unfold _get_latest_default_embedding_data
  dsimp only
  by_cases hemp : (embeddings.filter (fun e => startswith e.name "default")).isEmpty
  · rw [if_pos hemp]
    constructor
    · intro _ e he
      have hnil : embeddings.filter (fun e => startswith e.name "default") = [] :=
        List.isEmpty_iff.mp hemp
      have hne := List.filter_eq_nil_iff.mp hnil e he
      simpa using hne
    · intro _
      rfl
  · rw [if_neg hemp]
    have hne : embeddings.filter (fun e => startswith e.name "default") ≠ [] := by
      simpa [List.isEmpty_iff] using hemp
    have hsne :
        List.insertionSort createdAtLE (embeddings.filter (fun e => startswith e.name "default"))
          ≠ [] := by
      intro hcon
      apply hne
      have hperm := List.perm_insertionSort createdAtLE
        (embeddings.filter (fun e => startswith e.name "default"))
      rw [hcon] at hperm
      exact (hperm.symm).eq_nil
    constructor
    · intro hcon
      rw [List.getLast?_eq_none_iff] at hcon
      exact absurd hcon hsne
    · intro hall
      exfalso
      apply hne
      rw [List.filter_eq_nil_iff]
      intro e he
      simp [hall e he]

lemma latest_some_spec (embeddings : List DatasetEmbeddingData) (r : DatasetEmbeddingData)
    (h : _get_latest_default_embedding_data embeddings = some r) :
    r ∈ embeddings ∧ startswith r.name "default" = true ∧
    ∀ e ∈ embeddings, startswith e.name "default" = true → e.created_at ≤ r.created_at := by
  unfold _get_latest_default_embedding_data at h
  dsimp only at h
  by_cases hemp : (embeddings.filter (fun e => startswith e.name "default")).isEmpty
  · rw [if_pos hemp] at h
    exact absurd h (by simp)
  · rw [if_neg hemp] at h
    have hperm := List.perm_insertionSort createdAtLE
      (embeddings.filter (fun e => startswith e.name "default"))
    have hsorted := List.sorted_insertionSort createdAtLE
      (embeddings.filter (fun e => startswith e.name "default"))
    have hrmem := List.mem_of_mem_getLast? h
    have hrdef := hperm.mem_iff.mp hrmem
    have hrfil := List.mem_filter.mp hrdef
    refine ⟨hrfil.1, hrfil.2, ?_⟩
    intro e he hdefe
    have hedef : e ∈ embeddings.filter (fun e => startswith e.name "default") :=
      List.mem_filter.mpr ⟨he, hdefe⟩
    have hesort := hperm.mem_iff.mpr hedef
    exact sorted_last_max _ hsorted r h e hesort

/-- Claim C6: `_get_latest_default_embedding_data` returns a descriptor
with the maximum creation timestamp among those whose name starts with
the reserved `"default"` prefix, and returns `None` (absent, not an
error) when the name of no descriptor has that prefix. -/
theorem latest_default_embedding_spec (embeddings : List DatasetEmbeddingData) :
    ((∀ e ∈ embeddings, startswith e.name "default" = false) →
      _get_latest_default_embedding_data embeddings = none) ∧
    (∀ d ∈ embeddings, startswith d.name "default" = true →
      ∃ r, _get_latest_default_embedding_data embeddings = some r ∧
        r ∈ embeddings ∧ startswith r.name "default" = true ∧
        ∀ e ∈ embeddings, startswith e.name "default" = true →
          e.created_at ≤ r.created_at) := by
  constructor
  · intro h
    exact (latest_none_iff embeddings).mpr h
  · intro d hd hdefd
    cases hres : _get_latest_default_embedding_data embeddings with
    | none =>
      have hcon := (latest_none_iff embeddings).mp hres d hd
      rw [hdefd] at hcon
      exact absurd hcon (by simp)
    | some r =>
      obtain ⟨h1, h2, h3⟩ := latest_some_spec embeddings r hres
      exact ⟨r, rfl, h1, h2, h3⟩

/-- The embedding list of the latest-default example of the spec. -/
def embC6 : List DatasetEmbeddingData :=
  [⟨"i1", "default_a", 100, true, false⟩,
   ⟨"i2", "default_b", 200, true, false⟩,
   ⟨"i3", "custom", 300, true, false⟩]

/-- Witness for C6: on the example of the spec the latest default embedding
is the one named `"default_b"`. -/
theorem latest_default_embedding_spec_witness :
    ((⟨"i1", "default_a", 100, true, false⟩ : DatasetEmbeddingData) ∈ embC6 ∧
      startswith "default_a" "default" = true) ∧
    (∃ r, _get_latest_default_embedding_data embC6 = some r ∧
      r ∈ embC6 ∧ startswith r.name "default" = true ∧
      ∀ e ∈ embC6, startswith e.name "default" = true → e.created_at ≤ r.created_at) ∧
    _get_latest_default_embedding_data embC6 = some ⟨"i2", "default_b", 200, true, false⟩ := by
  refine ⟨⟨by decide, by decide⟩, ?_, by decide⟩
  exact (latest_default_embedding_spec embC6).2
    ⟨"i1", "default_a", 100, true, false⟩ (by decide) (by decide)

/-- Claim C7: `download_embeddings_csv` raises a `RuntimeError` exactly
when no embedding has a default-prefixed name; otherwise it resolves the
latest default descriptor and writes the CSV fetched through its signed
read url to `output_path`, overwriting whatever the file system held at
that path (every other path is untouched). -/
theorem download_embeddings_csv_spec (env : CsvEnv) (output_path : String) (fs : FileSystem) :
    ((∀ e ∈ env.embeddings, startswith e.name "default" = false) ↔
      ∃ msg, download_embeddings_csv env output_path fs = .error (.runtimeError msg)) ∧
    (∀ fs2, download_embeddings_csv env output_path fs = .ok fs2 →
      ∃ r, _get_latest_default_embedding_data env.embeddings = some r ∧
        startswith r.name "default" = true ∧
        (∀ e ∈ env.embeddings, startswith e.name "default" = true →
          e.created_at ≤ r.created_at) ∧
        fs2 output_path = some (env.fetch (env.csv_read_url r.id)) ∧
        ∀ p, p ≠ output_path → fs2 p = fs p) := by
  constructor
  · constructor
    · intro hall
      have hnone := (latest_none_iff env.embeddings).mpr hall
      refine ⟨"Could not find embeddings for dataset with id " ++ (env.dataset_id ++ "."), ?_⟩
      unfold download_embeddings_csv
      rw [hnone]
    · rintro ⟨msg, hmsg⟩
      apply (latest_none_iff env.embeddings).mp
      cases hres : _get_latest_default_embedding_data env.embeddings with
      | none => rfl
      | some r =>
        unfold download_embeddings_csv at hmsg
        rw [hres] at hmsg
        exact absurd hmsg (by simp)
  · intro fs2 hok
    cases hres : _get_latest_default_embedding_data env.embeddings with
    | none =>
      unfold download_embeddings_csv at hok
      rw [hres] at hok
      exact absurd hok (by simp)
    | some r =>
      obtain ⟨_, h2, h3⟩ := latest_some_spec env.embeddings r hres
      unfold download_embeddings_csv at hok
      rw [hres] at hok
      have hfs2 : fs2 = download_embeddings_csv_by_id env r.id output_path fs := by
        simpa using hok.symm
      refine ⟨r, rfl, h2, h3, ?_, ?_⟩
      · rw [hfs2]
        simp [download_embeddings_csv_by_id, download_and_write_file]
      · intro p hp
        rw [hfs2]
        simp [download_embeddings_csv_by_id, download_and_write_file, hp]

/-- Environment for the C7 witness: one embedding, not default-named. -/
def envC7 : CsvEnv :=
  { dataset_id := "d7"
    embeddings := [⟨"i3", "custom", 300, true, false⟩]
    csv_read_url := fun s => s
    fetch := fun s => s }

/-- An empty file system for the C7 witness. -/
def fsC7 : FileSystem := fun _ => none

/-- Witness for C7: with no default-named embedding the call raises a
`RuntimeError`. -/
theorem download_embeddings_csv_spec_witness :
    (∀ e ∈ envC7.embeddings, startswith e.name "default" = false) ∧
    ∃ msg, download_embeddings_csv envC7 "out.csv" fsC7 = .error (.runtimeError msg) := by
  refine ⟨by decide, ?_⟩
  exact (download_embeddings_csv_spec envC7 "out.csv" fsC7).1.mp (by decide)

/-- Claim C8: `SymNegCosineSimilarityLoss.forward` is symmetrized: for
all inputs `(z0, p0)` and `(z1, p1)` and any behaviour of the external
cosine primitive, `forward out0 out1 = forward out1 out0`, each being
half the mean negative cosine similarity of `(p0, z1)` plus half that
of `(p1, z0)`. -/
theorem sym_loss_symmetrized (cos : List ℚ → List ℚ → ℚ) (z0 p0 z1 p1 : QTensor) :
    forward cos (z0, p0) (z1, p1) = forward cos (z1, p1) (z0, p0) ∧
    forward cos (z0, p0) (z1, p1) =
      _neg_cosine_simililarity cos p0 z1 / 2 + _neg_cosine_simililarity cos p1 z0 / 2 := by
  constructor
  · show _neg_cosine_simililarity cos p0 z1 / 2 + _neg_cosine_simililarity cos p1 z0 / 2
      = _neg_cosine_simililarity cos p1 z0 / 2 + _neg_cosine_simililarity cos p0 z1 / 2
    exact add_comm _ _
  · rfl

lemma pyUnpack2_err (v : PyValue) (h : unpacksToTwo v = false) :
    ∃ e, pyUnpack2 v = .error e := by
  cases v with
  | tuple l =>
    rcases l with _ | ⟨a, _ | ⟨b, _ | ⟨c, rest⟩⟩⟩
    · exact ⟨_, rfl⟩
    · exact ⟨_, rfl⟩
    · simp [unpacksToTwo] at h
    · exact ⟨_, rfl⟩
  | tensor t =>
    cases t with
    | scalar q => exact ⟨_, rfl⟩
    | arr l =>
      rcases l with _ | ⟨a, _ | ⟨b, _ | ⟨c, rest⟩⟩⟩
      · exact ⟨_, rfl⟩
      · exact ⟨_, rfl⟩
      · simp [unpacksToTwo] at h
      · exact ⟨_, rfl⟩

/-- First row of the C10 tensor: the 1-d tensor `[1, 0, 0]`. -/
def rowA : PyTensor := .arr [.scalar 1, .scalar 0, .scalar 0]

/-- Second row of the C10 tensor: the 1-d tensor `[0, 1, 0]`. -/
def rowB : PyTensor := .arr [.scalar 0, .scalar 1, .scalar 0]

/-- A plain single tensor of shape (2, 3). -/
def plainTensor : PyValue := .tensor (.arr [rowA, rowB])

/-- A fixed external similarity primitive for the C10 instances (on the
1-d rows of `plainTensor` the real primitive succeeds as well). -/
def simConst : PyTensor → PyTensor → Except PyErr ℚ := fun _ _ => .ok 0

/-- Counterexample to C10 as stated: a plain single tensor whose first
dimension has length 2 IS a valid input — Python unpacking iterates a
tensor along its first dimension, so `z0, p0 = out0` succeeds on a
shape-(2, 3) tensor and `forward` returns a value without raising. -/
theorem plain_tensor_accepted_counterexample :
    unpacksToTwo plainTensor = true ∧
    (forwardDyn simConst plainTensor plainTensor).1 = .ok 0 := by
  constructor
  · rfl
  · show Except.ok (-(0 : ℚ) / 2 + -(0 : ℚ) / 2) = Except.ok 0
    norm_num

/-- Claim C10 (amended): every argument of `forward` that does not
unpack into exactly two elements raises before any similarity is
computed (the similarity-call log is empty); however a plain single
tensor is a valid input exactly when its first dimension has length 2,
in which case it unpacks into its two first-dimension slices. -/
theorem forward_unpack_amended (sim : PyTensor → PyTensor → Except PyErr ℚ)
    (out0 out1 : PyValue)
    (h : unpacksToTwo out0 = false ∨ unpacksToTwo out1 = false) :
    (∃ err, forwardDyn sim out0 out1 = (.error err, [])) ∧
    ∀ a b : PyTensor, pyUnpack2 (.tensor (.arr [a, b])) = .ok (a, b) := by
  refine ⟨?_, fun a b => rfl⟩
  rcases h with h0 | h1
  · obtain ⟨e, he⟩ := pyUnpack2_err out0 h0
    exact ⟨e, by simp [forwardDyn, he]⟩
  · obtain ⟨e, he⟩ := pyUnpack2_err out1 h1
    cases hu : pyUnpack2 out0 with
    | error e0 => exact ⟨e0, by simp [forwardDyn, hu]⟩
    | ok zp =>
      obtain ⟨z, p⟩ := zp
      exact ⟨e, by simp [forwardDyn, hu, he]⟩

/-- Witness for the amended C10 at a concrete 1-element tuple. -/
theorem forward_unpack_amended_witness :
    unpacksToTwo (PyValue.tuple [rowA]) = false ∧
    ∃ err, forwardDyn simConst (PyValue.tuple [rowA]) plainTensor = (.error err, []) := by
  refine ⟨rfl, ?_⟩
  exact (forward_unpack_amended simConst (PyValue.tuple [rowA]) plainTensor (Or.inl rfl)).1

/-- Environment for the C4 witness (it only feeds the empty batch). -/
def envC4 : ApiEnv :=
  { dataset_id := "d4", img_type := .full, tags := []
    sample_ids_on_server := [], filenames_on_server := []
    attempt := fun _ _ => .ok () }

/-- Witness for C4 at the concrete clamp inputs of the spec. -/
theorem worker_clamp_spec_witness :
    (1 : Int) ≤ 8 ∧ clampWorkers 3 8 = 3 ∧ clampWorkers 3 8 ≤ max 1 ((3 : Nat) : Int) ∧
    (downloadAll envC4 []).warnings = [] := by
  have h := worker_clamp_spec 3 8 envC4
  exact ⟨by decide, h.2.2.2.1, h.2.2.1 (by decide), h.2.2.2.2.2.1⟩
